import Mathlib

/-!
Verification development for the SecretCalc pairing/chat server
(`src/server.js`). The store-backed handlers (pairing enter, message
listing, message read) and the socket relay handlers (join_room,
send_message, message_read, call signaling, disconnect) are embedded as
pure functions over an explicit database / relay state. Async store
calls become explicit read and write phases so that interleavings of
concurrent handlers can be examined.
-/

namespace SecretCalc

/-- Default signing secret (server.js line 17). The environment may
override it; all theorems hold for any fixed configured secret, and the
constant stands for whichever one the process loaded at startup. -/
def JWT_SECRET : String := "secretcalc_jwt_secret_change_in_prod"

/-- Payload signed into a token (server.js lines 115-116). -/
structure JwtClaim where
  deviceId : String
  roomId : String
deriving DecidableEq, Repr

/-- A signed token: payload plus integrity signature. -/
structure JwtToken where
  payload : JwtClaim
  sig : String
deriving DecidableEq, Repr

/-- Modelled from the spec: the `jsonwebtoken` signing primitive is an
external collaborator (only its call sites are in `src/`); spec section 4.1
describes `issue` as deterministic signing, a pure function of the payload
and the configured secret. The signature is abstracted as the secret used
to produce it. -/
def jwtSign (payload : JwtClaim) (secret : String) : JwtToken :=
  { payload := payload, sig := secret }

/-- Modelled from the spec: verification succeeds exactly when the
signature matches the configured secret, returning the payload. -/
def jwtVerify (t : JwtToken) (secret : String) : Option JwtClaim :=
  if t.sig = secret then some t.payload else none

/-- PairingCode document (schema, server.js lines 24-31). `id` stands for
the Mongo `_id`, unique per document. -/
structure PairingRow where
  id : Nat
  code : String
  deviceId : String
  roomId : String
  paired : Bool
  expiresAt : Nat
  createdAt : Nat
deriving DecidableEq, Repr

/-- Room document (schema, server.js lines 33-37). `roomId` carries a
unique index. -/
structure RoomRow where
  roomId : String
  devices : List String
deriving DecidableEq, Repr

/-- `replyTo` subdocument of a message (server.js lines 43-47). -/
structure ReplyTo where
  messageId : String
  content : String
  senderId : String
deriving DecidableEq, Repr

/-- Message document (schema, server.js lines 39-50). `id` stands for the
Mongo `_id`. -/
structure MessageRow where
  id : Nat
  roomId : String
  senderId : String
  content : String
  replyTo : Option ReplyTo
  read : Bool
  timestamp : Nat
deriving DecidableEq, Repr

/-- The external document store: one collection per schema. -/
structure DB where
  pairingCodes : List PairingRow
  rooms : List RoomRow
  messages : List MessageRow
deriving DecidableEq, Repr

/-- `PairingCode.findOne({ code, paired: false })` (server.js line 100):
first document matching the filter. -/
def findOnePending (db : DB) (code : String) : Option PairingRow :=
  db.pairingCodes.find? (fun r => r.code == code && r.paired == false)

/-- `PairingCode.deleteOne({ _id })` (server.js line 103): removes the
document with that `_id`; `_id` is unique so at most one matches. -/
def deleteOnePairingById (db : DB) (id : Nat) : DB :=
  { db with pairingCodes := db.pairingCodes.eraseP (fun r => r.id == id) }

/-- `pairing.paired = true; pairing.save()` (server.js lines 108-109):
a document save writes the modified document back by `_id`. -/
def savePairingPaired (db : DB) (id : Nat) : DB :=
  { db with pairingCodes :=
      db.pairingCodes.map (fun r => if r.id == id then { r with paired := true } else r) }

/-- `new Room({...}).save()` (server.js lines 112-113): insert, rejected
by the unique index on `roomId` when a room with that id already exists
(the thrown duplicate-key error is caught as a 500). -/
def saveRoom (db : DB) (room : RoomRow) : Option DB :=
  if db.rooms.any (fun r => r.roomId == room.roomId) then none
  else some { db with rooms := db.rooms ++ [room] }

/-- Outcome of `POST /api/pairing/enter` (server.js lines 95-126):
404 not found, 410 expired, 400 self-pairing, 500 server error, or the
success body carrying the room id. -/
inductive ConsumeResult where
  | notFound
  | expired
  | selfPairing
  | serverError
  | success (roomId : String)
deriving DecidableEq, Repr

/-- Write phase of the enter handler (server.js lines 102-121), given the
row obtained by the line-100 read. `new Date() > pairing.expiresAt`
becomes `row.expiresAt < now`. -/
def consumeWrite (db : DB) (row : PairingRow) (deviceId : String) (now : Nat) :
    ConsumeResult × DB :=
  if row.expiresAt < now then
    (.expired, deleteOnePairingById db row.id)
  else if row.deviceId == deviceId then
    (.selfPairing, db)
  else
    match saveRoom (savePairingPaired db row.id)
        { roomId := row.roomId, devices := [row.deviceId, deviceId] } with
    | none => (.serverError, savePairingPaired db row.id)
    | some db2 => (.success row.roomId, db2)

/-- The enter handler run without interference: the line-100 `findOne`
read immediately followed by the write phase. -/
def consume (db : DB) (code deviceId : String) (now : Nat) : ConsumeResult × DB :=
  match findOnePending db code with
  | none => (.notFound, db)
  | some row => consumeWrite db row deviceId now

/-- Insert a message into a list sorted by ascending timestamp. -/
def insertByTs (m : MessageRow) : List MessageRow → List MessageRow
  | [] => [m]
  | x :: xs => if m.timestamp ≤ x.timestamp then m :: x :: xs else x :: insertByTs m xs

/-- `.sort({ timestamp: 1 })` (server.js line 139): sort by ascending
timestamp. -/
def sortByTs : List MessageRow → List MessageRow
  | [] => []
  | x :: xs => insertByTs x (sortByTs xs)

/-- `GET /api/messages/:roomId` (server.js lines 134-144): 403 when the
path room differs from the token's room, otherwise
`Message.find({roomId}).sort({timestamp:1}).limit(500)`. -/
def listMessages (db : DB) (claimRoomId reqRoomId : String) :
    Except Unit (List MessageRow) :=
  if reqRoomId ≠ claimRoomId then .error ()
  else .ok ((sortByTs (db.messages.filter (fun m => m.roomId == reqRoomId))).take 500)

/-- A Session Table entry (server.js line 176): `socketId -> { deviceId, roomId }`. -/
structure Session where
  deviceId : String
  roomId : String
deriving DecidableEq, Repr

/-- In-memory relay state: the `socketRooms` map and the socket.io
adapter's channel membership (which sockets joined which channel). -/
structure RelayState where
  socketRooms : String → Option Session
  channelMembers : String → List String

/-- `socket.to(room).emit(...)`: every socket in the channel except the
emitting one. -/
def socketTo (st : RelayState) (room sid : String) : List String :=
  (st.channelMembers room).filter (fun m => m ≠ sid)

/-- `io.to(room).emit(...)`: every socket in the channel, the emitter
included when it is a member. -/
def ioTo (st : RelayState) (room : String) : List String :=
  st.channelMembers room

/-- One emitted event: its name and the sockets it is delivered to. -/
structure Emit where
  event : String
  recipients : List String
deriving DecidableEq, Repr

/-- `socket.join(ch)`: adds the socket to the channel (idempotent, no
leave of any other channel). -/
def joinChannel (st : RelayState) (sid ch : String) : RelayState :=
  { st with channelMembers := fun c =>
      if c = ch then
        (if sid ∈ st.channelMembers ch then st.channelMembers ch
         else sid :: st.channelMembers ch)
      else st.channelMembers c }

/-- `socketRooms.set(sid, s)`: overwrites any prior binding. -/
def bindSession (st : RelayState) (sid : String) (s : Session) : RelayState :=
  { st with socketRooms := fun k => if k = sid then some s else st.socketRooms k }

/-- `socketRooms.delete(sid)`. -/
def unbindSession (st : RelayState) (sid : String) : RelayState :=
  { st with socketRooms := fun k => if k = sid then none else st.socketRooms k }

/-- `join_room` handler (server.js lines 188-200): verify the token,
require its room to equal the requested room, join the channel, bind the
session, broadcast `peer_online` to the other channel members. -/
def join_room (st : RelayState) (sid roomId : String) (token : JwtToken) :
    RelayState × List Emit :=
  match jwtVerify token JWT_SECRET with
  | none => (st, [{ event := "error", recipients := [sid] }])
  | some user =>
    if user.roomId ≠ roomId then (st, [{ event := "error", recipients := [sid] }])
    else
      let st2 := bindSession (joinChannel st sid roomId) sid
        { deviceId := user.deviceId, roomId := roomId }
      (st2, [{ event := "peer_online", recipients := socketTo st2 roomId sid }])

/-- `send_message` handler (server.js lines 203-232): drop without a
session; otherwise persist the message (schema defaults `read:false`,
server clock timestamp, fresh `_id`) and broadcast `new_message` through
`io.to` to the whole room, the sender included. -/
def send_message (db : DB) (st : RelayState) (sid : String) (content : String)
    (replyTo : Option ReplyTo) (newId : Nat) (now : Nat) : DB × List Emit :=
  match st.socketRooms sid with
  | none => (db, [])
  | some ctx =>
      ({ db with messages := db.messages ++
          [{ id := newId, roomId := ctx.roomId, senderId := ctx.deviceId,
             content := content, replyTo := replyTo, read := false, timestamp := now }] },
       [{ event := "new_message", recipients := ioTo st ctx.roomId }])

/-- `Message.updateOne({ _id: mid }, { read: true })` (server.js line
239): sets `read` on the document matching the id filter alone; at most
one document matches since `_id` is unique. -/
def updateOneReadById : List MessageRow → Nat → List MessageRow
  | [], _ => []
  | m :: ms, mid =>
      if m.id == mid then { m with read := true } :: ms
      else m :: updateOneReadById ms mid

/-- `message_read` handler (server.js lines 235-241). -/
def message_read (db : DB) (st : RelayState) (sid : String) (mid : Nat) :
    DB × List Emit :=
  match st.socketRooms sid with
  | none => (db, [])
  | some ctx =>
      ({ db with messages := updateOneReadById db.messages mid },
       [{ event := "message_read", recipients := socketTo st ctx.roomId sid }])

/-- `call_offer` handler (server.js lines 245-249). -/
def call_offer (st : RelayState) (sid : String) : List Emit :=
  match st.socketRooms sid with
  | none => []
  | some ctx => [{ event := "call_offer", recipients := socketTo st ctx.roomId sid }]

/-- `call_answer` handler (server.js lines 251-255). -/
def call_answer (st : RelayState) (sid : String) : List Emit :=
  match st.socketRooms sid with
  | none => []
  | some ctx => [{ event := "call_answer", recipients := socketTo st ctx.roomId sid }]

/-- `ice_candidate` handler (server.js lines 257-261). -/
def ice_candidate (st : RelayState) (sid : String) : List Emit :=
  match st.socketRooms sid with
  | none => []
  | some ctx => [{ event := "ice_candidate", recipients := socketTo st ctx.roomId sid }]

/-- `call_end` handler (server.js lines 263-267): relays as `call_ended`. -/
def call_end (st : RelayState) (sid : String) : List Emit :=
  match st.socketRooms sid with
  | none => []
  | some ctx => [{ event := "call_ended", recipients := socketTo st ctx.roomId sid }]

/-- `disconnect` handler (server.js lines 271-278): if a session exists,
broadcast `peer_offline` to the rest of the room and delete the entry. -/
def disconnectHandler (st : RelayState) (sid : String) : RelayState × List Emit :=
  match st.socketRooms sid with
  | none => (st, [])
  | some ctx =>
      (unbindSession st sid,
       [{ event := "peer_offline", recipients := socketTo st ctx.roomId sid }])

/-- `jwt.sign({ deviceId, roomId }, JWT_SECRET)` at its call sites
(server.js lines 115-116), with the store state threaded to make the
absence of side effects expressible. -/
def issue (db : DB) (deviceId roomId : String) : JwtToken × DB :=
  (jwtSign { deviceId := deviceId, roomId := roomId } JWT_SECRET, db)

/-- Field names of the MessageSchema (server.js lines 39-50), besides the
implicit `_id`. -/
def messageSchemaFields : List String :=
  ["roomId", "senderId", "content", "replyTo", "read", "timestamp"]

/-- Keys of the object literal broadcast as `new_message` (server.js
lines 216-224). -/
def newMessagePayloadKeys : List String :=
  ["_id", "roomId", "senderId", "content", "replyTo", "read", "timestamp"]

/-- Fields destructured from the `send_message` event body (server.js
line 203). -/
def sendMessageParams : List String := ["content", "replyTo"]

/-- The initial state of the race examined for the consume atomicity
claim: a single pending code generated by device `A1`. -/
def raceDB : DB :=
  { pairingCodes :=
      [{ id := 1, code := "482913", deviceId := "A1", roomId := "r-xyz",
         paired := false, expiresAt := 300000, createdAt := 0 }],
    rooms := [], messages := [] }

/-- Two concurrent enter handlers for the same code, from devices `B1`
and `C1`, interleaved at the await points so that both line-100 reads
complete against the initial store before either write phase runs; the
write phases then run in order. -/
def racePair : ConsumeResult × ConsumeResult :=
  match findOnePending raceDB "482913", findOnePending raceDB "482913" with
  | some a, some b =>
      let step1 := consumeWrite raceDB a "B1" 1000
      let step2 := consumeWrite step1.2 b "C1" 1000
      (step1.1, step2.1)
  | _, _ => (.notFound, .notFound)

/-! ### Helper lemmas -/

theorem findOnePending_props {db : DB} {code : String} {row : PairingRow}
    (hfind : findOnePending db code = some row) :
    row ∈ db.pairingCodes ∧ row.code = code ∧ row.paired = false := by
  have hmem := List.mem_of_find?_eq_some hfind
  have hp := List.find?_some hfind
  rw [Bool.and_eq_true, beq_iff_eq, beq_iff_eq] at hp
  exact ⟨hmem, hp.1, hp.2⟩

theorem self_notMem_eraseP_id {row : PairingRow} :
    ∀ (l : List PairingRow), l.Nodup → (∀ r ∈ l, r.id = row.id → r = row) →
      row ∉ l.eraseP (fun r => r.id == row.id) := by
  intro l
  induction l with
  | nil => intro _ _ h; cases h
  | cons a t ih =>
    intro hnd hid
    rw [List.eraseP_cons]
    by_cases ha : a.id = row.id
    · have haeq : a = row := hid a (List.mem_cons_self a t) ha
      have : (a.id == row.id) = true := beq_iff_eq.mpr ha
      rw [this]
      simp only [cond_true]
      subst haeq
      exact (List.nodup_cons.mp hnd).1
    · have : (a.id == row.id) = false := beq_eq_false_iff_ne.mpr ha
      rw [this]
      simp only [cond_false, List.mem_cons, not_or]
      refine ⟨fun h => ha (h ▸ rfl), ?_⟩
      exact ih (List.nodup_cons.mp hnd).2
        (fun r hr h => hid r (List.mem_cons_of_mem a hr) h)

theorem findOnePending_after_delete {db : DB} {code : String} {row : PairingRow}
    (hnd : db.pairingCodes.Nodup)
    (hid : ∀ r ∈ db.pairingCodes, r.id = row.id → r = row)
    (hcode : ∀ r ∈ db.pairingCodes, r.code = code → r = row) :
    findOnePending (deleteOnePairingById db row.id) code = none := by
  apply List.find?_eq_none.mpr
  intro r hr hp
  rw [Bool.and_eq_true, beq_iff_eq, beq_iff_eq] at hp
  have hrdb : r ∈ db.pairingCodes := List.mem_of_mem_eraseP hr
  have hreq : r = row := hcode r hrdb hp.1
  subst hreq
  exact self_notMem_eraseP_id db.pairingCodes hnd hid hr

theorem consume_eq_write {db : DB} {code : String} {row : PairingRow}
    (hfind : findOnePending db code = some row) (dev : String) (now : Nat) :
    consume db code dev now = consumeWrite db row dev now := by
  unfold consume
  rw [hfind]

/-! ### Claims -/

/-- Claim C1 (spec section 4.2 / 5): the enter handler is claimed to make
"find the pending row and mark it consumed" one atomic operation, with a
racing loser failing as `NotFound`. The code performs a plain `findOne`
followed by a separate `save` (lines 100 and 109). Under the interleaving
in which both racing handlers complete the read before either write, the
second caller does not observe `NotFound`: it passes every check on its
stale row and proceeds to write, failing only on the Room unique index
(surfaced as a 500 server error), while the first succeeds. -/
theorem consume_race_not_atomic :
    racePair = (ConsumeResult.success "r-xyz", ConsumeResult.serverError) ∧
      racePair.2 ≠ ConsumeResult.notFound := by
  decide

/-- Claim C2, counterexample: a pending code generated by `A1` that
expired at 300000, consumed by `A1` itself at time 400000, fails with
`Expired`, not `SelfPairing` — the expiry check at line 102 runs before
the self-pairing check at line 106. -/
theorem consume_self_expired_counterexample :
    (consume raceDB "482913" "A1" 400000).1 ≠ ConsumeResult.selfPairing ∧
      (consume raceDB "482913" "A1" 400000).1 = ConsumeResult.expired := by
  decide

/-- Claim C2, amended: consuming with the generating device's id fails
with `SelfPairing` whenever the code is pending and not yet expired; for
expired pending codes the `Expired` outcome takes precedence. -/
theorem consume_self_pairing_unexpired (db : DB) (code dev : String) (now : Nat)
    (row : PairingRow) (hfind : findOnePending db code = some row)
    (hexp : ¬ row.expiresAt < now) (hdev : row.deviceId = dev) :
    (consume db code dev now).1 = ConsumeResult.selfPairing := by
  rw [consume_eq_write hfind]
  unfold consumeWrite
  rw [if_neg hexp, if_pos (beq_iff_eq.mpr hdev)]

/-- Witness for `consume_self_pairing_unexpired` at the concrete store:
the generator consumes its own unexpired code and gets `SelfPairing`. -/
theorem consume_self_pairing_unexpired_witness :
    (consume raceDB "482913" "A1" 1000).1 = ConsumeResult.selfPairing := by
  exact consume_self_pairing_unexpired raceDB "482913" "A1" 1000
    { id := 1, code := "482913", deviceId := "A1", roomId := "r-xyz",
      paired := false, expiresAt := 300000, createdAt := 0 }
    (by decide) (by decide) (by decide)

/-- Claim C3: on a pending code (under the store's `_id` and `code`
uniqueness invariants) the enter handler fails `Expired` exactly when the
call happens after the 5-minute window (`now > expiresAt`), this failure
deletes the row, and every subsequent consume of the same code fails
`NotFound`. -/
theorem consume_expired_iff_and_deletes (db : DB) (code dev : String) (now : Nat)
    (row : PairingRow) (hfind : findOnePending db code = some row)
    (hnd : db.pairingCodes.Nodup)
    (hid : ∀ r ∈ db.pairingCodes, r.id = row.id → r = row)
    (hcode : ∀ r ∈ db.pairingCodes, r.code = code → r = row) :
    ((consume db code dev now).1 = ConsumeResult.expired ↔ row.expiresAt < now) ∧
      (row.expiresAt < now →
        row ∉ (consume db code dev now).2.pairingCodes ∧
        ∀ dev' now', (consume (consume db code dev now).2 code dev' now').1 =
          ConsumeResult.notFound) := by
  constructor
  · rw [consume_eq_write hfind]
    unfold consumeWrite
    by_cases hexp : row.expiresAt < now
    · simp [hexp]
    · rw [if_neg hexp]
      by_cases hdev : row.deviceId == dev
      · simp [hdev, hexp]
      · rw [Bool.not_eq_true] at hdev
        rw [hdev]
        simp only [Bool.false_eq_true, if_false]
        cases hsr : saveRoom (savePairingPaired db row.id)
            { roomId := row.roomId, devices := [row.deviceId, dev] } with
        | none => simp [hsr, hexp]
        | some db2 => simp [hsr, hexp]
  · intro hexp
    have hstate : (consume db code dev now).2 = deleteOnePairingById db row.id := by
      rw [consume_eq_write hfind]
      unfold consumeWrite
      rw [if_pos hexp]
    constructor
    · rw [hstate]
      exact self_notMem_eraseP_id db.pairingCodes hnd hid
    · intro dev' now'
      rw [hstate]
      unfold consume
      rw [findOnePending_after_delete hnd hid hcode]

/-- Witness for `consume_expired_iff_and_deletes`: an expired consume on
the concrete store returns `Expired` and the retry returns `NotFound`. -/
theorem consume_expired_iff_and_deletes_witness :
    (consume raceDB "482913" "B1" 400000).1 = ConsumeResult.expired ∧
      (consume (consume raceDB "482913" "B1" 400000).2 "482913" "C1" 400001).1 =
        ConsumeResult.notFound := by
  have h := consume_expired_iff_and_deletes raceDB "482913" "B1" 400000
    { id := 1, code := "482913", deviceId := "A1", roomId := "r-xyz",
      paired := false, expiresAt := 300000, createdAt := 0 }
    (by decide) (by decide) (by decide) (by decide)
  exact ⟨h.1.mpr (by decide), (h.2 (by decide)).2 "C1" 400001⟩

/-- Claim C7: `issue` is deterministic and side-effect free — two calls
with the same device id, room id and configured secret yield the same
claim, and the store state is returned unchanged. -/
theorem issue_deterministic_pure (db db2 : DB) (deviceId roomId : String) :
    (issue db deviceId roomId).1 = (issue db2 deviceId roomId).1 ∧
      (issue db deviceId roomId).2 = db := by
  exact ⟨rfl, rfl⟩

theorem mem_insertByTs {a m : MessageRow} :
    ∀ {l : List MessageRow}, a ∈ insertByTs m l ↔ a = m ∨ a ∈ l := by
  intro l
  induction l with
  | nil => simp [insertByTs]
  | cons x xs ih =>
    rw [insertByTs]
    by_cases hle : m.timestamp ≤ x.timestamp
    · rw [if_pos hle]
      simp
    · rw [if_neg hle]
      simp only [List.mem_cons, ih]
      tauto

theorem pairwise_insertByTs {m : MessageRow} :
    ∀ {l : List MessageRow},
      l.Pairwise (fun a b => a.timestamp ≤ b.timestamp) →
      (insertByTs m l).Pairwise (fun a b => a.timestamp ≤ b.timestamp) := by
  intro l
  induction l with
  | nil => intro _; simp [insertByTs]
  | cons x xs ih =>
    intro h
    rw [insertByTs]
    rw [List.pairwise_cons] at h
    by_cases hle : m.timestamp ≤ x.timestamp
    · rw [if_pos hle]
      refine List.pairwise_cons.mpr ⟨?_, List.pairwise_cons.mpr h⟩
      intro b hb
      rcases List.mem_cons.mp hb with hb | hb
      · exact hb ▸ hle
      · exact le_trans hle (h.1 b hb)
    · rw [if_neg hle]
      refine List.pairwise_cons.mpr ⟨?_, ih h.2⟩
      intro b hb
      rcases mem_insertByTs.mp hb with hb | hb
      · exact hb ▸ le_of_not_le hle
      · exact h.1 b hb

theorem mem_sortByTs {a : MessageRow} :
    ∀ {l : List MessageRow}, a ∈ sortByTs l ↔ a ∈ l := by
  intro l
  induction l with
  | nil => simp [sortByTs]
  | cons x xs ih =>
    rw [sortByTs]
    simp only [mem_insertByTs, ih, List.mem_cons]

theorem pairwise_sortByTs :
    ∀ (l : List MessageRow),
      (sortByTs l).Pairwise (fun a b => a.timestamp ≤ b.timestamp) := by
  intro l
  induction l with
  | nil => simp [sortByTs]
  | cons x xs ih =>
    rw [sortByTs]
    exact pairwise_insertByTs ih

/-- Claim C5: the message-listing route rejects with 403 exactly when the
token's room differs from the requested room; otherwise it returns at
most 500 messages, all from the token's room, ordered by ascending
timestamp. -/
theorem listMessages_isolated_capped_sorted (db : DB) (claimRoomId reqRoomId : String) :
    (reqRoomId ≠ claimRoomId → listMessages db claimRoomId reqRoomId = .error ()) ∧
      (reqRoomId = claimRoomId →
        ∃ msgs, listMessages db claimRoomId reqRoomId = .ok msgs ∧
          msgs.length ≤ 500 ∧
          (∀ m ∈ msgs, m.roomId = claimRoomId) ∧
          msgs.Pairwise (fun a b => a.timestamp ≤ b.timestamp)) := by
  constructor
  · intro hne
    unfold listMessages
    rw [if_pos hne]
  · intro heq
    refine ⟨(sortByTs (db.messages.filter (fun m => m.roomId == reqRoomId))).take 500,
      ?_, ?_, ?_, ?_⟩
    · unfold listMessages
      rw [if_neg (by simp [heq])]
    · rw [List.length_take]
      exact min_le_left _ _
    · intro m hm
      have hms : m ∈ sortByTs (db.messages.filter (fun r => r.roomId == reqRoomId)) :=
        (List.take_sublist 500 _).subset hm
      have hmf := mem_sortByTs.mp hms
      have := (List.mem_filter.mp hmf).2
      rw [beq_iff_eq] at this
      rw [this, heq]
    · exact (pairwise_sortByTs _).sublist (List.take_sublist 500 _)

/-- Concrete store used by several witnesses: messages in two rooms, out
of timestamp order. -/
def msgsDB : DB :=
  { pairingCodes := [], rooms := [],
    messages :=
      [{ id := 1, roomId := "r1", senderId := "A1", content := "a",
         replyTo := none, read := false, timestamp := 10 },
       { id := 2, roomId := "r2", senderId := "B1", content := "b",
         replyTo := none, read := false, timestamp := 5 },
       { id := 3, roomId := "r1", senderId := "A1", content := "c",
         replyTo := none, read := false, timestamp := 3 }] }

/-- Witness for `listMessages_isolated_capped_sorted`: a mismatched room
is rejected, and a matching request on the concrete store yields only
`r1` messages, sorted and capped. -/
theorem listMessages_isolated_capped_sorted_witness :
    listMessages msgsDB "r1" "r2" = .error () ∧
      (∃ msgs, listMessages msgsDB "r1" "r1" = .ok msgs ∧
        msgs.length ≤ 500 ∧
        (∀ m ∈ msgs, m.roomId = "r1") ∧
        msgs.Pairwise (fun a b => a.timestamp ≤ b.timestamp)) := by
  exact ⟨(listMessages_isolated_capped_sorted msgsDB "r1" "r2").1 (by decide),
    (listMessages_isolated_capped_sorted msgsDB "r1" "r1").2 rfl⟩

/-- Claim C4, counterexample: neither the `send_message` event body, nor
the MessageSchema, nor the broadcast `new_message` payload has any
`kind`, `voiceUrl` or `voiceDuration` field. -/
theorem no_kind_field_counterexample :
    "kind" ∉ sendMessageParams ∧ "kind" ∉ messageSchemaFields ∧
      "kind" ∉ newMessagePayloadKeys ∧ "voiceUrl" ∉ messageSchemaFields ∧
      "voiceDuration" ∉ messageSchemaFields := by
  decide

/-- Claim C4, amended: `sendMessage` accepts only `content` and an
optional `replyTo`; the persisted record carries exactly the schema
fields (id, roomId, senderId, content, replyTo, read, timestamp) and the
broadcast payload carries exactly those keys, with no `kind`, `voiceUrl`
or `voiceDuration`. -/
theorem send_message_record_shape (db : DB) (st : RelayState) (sid content : String)
    (replyTo : Option ReplyTo) (newId now : Nat) (ctx : Session)
    (hctx : st.socketRooms sid = some ctx) :
    (send_message db st sid content replyTo newId now).1.messages =
        db.messages ++
          [{ id := newId, roomId := ctx.roomId, senderId := ctx.deviceId,
             content := content, replyTo := replyTo, read := false, timestamp := now }] ∧
      sendMessageParams = ["content", "replyTo"] ∧
      newMessagePayloadKeys =
        ["_id", "roomId", "senderId", "content", "replyTo", "read", "timestamp"] ∧
      "kind" ∉ newMessagePayloadKeys ∧ "voiceUrl" ∉ newMessagePayloadKeys ∧
      "voiceDuration" ∉ newMessagePayloadKeys := by
  refine ⟨?_, rfl, rfl, by decide, by decide, by decide⟩
  unfold send_message
  rw [hctx]

/-- Concrete relay state used by several witnesses: socket `s1` holds a
session for device `A1` in room `r1`; channel `r1` has members `s1` and
`s2`. -/
def stW : RelayState :=
  { socketRooms := fun k => if k = "s1" then some { deviceId := "A1", roomId := "r1" } else none,
    channelMembers := fun c => if c = "r1" then ["s1", "s2"] else [] }

/-- Witness for `send_message_record_shape` on the concrete relay state. -/
theorem send_message_record_shape_witness :
    (send_message msgsDB stW "s1" "hi" none 7 42).1.messages =
        msgsDB.messages ++
          [{ id := 7, roomId := "r1", senderId := "A1", content := "hi",
             replyTo := none, read := false, timestamp := 42 }] ∧
      sendMessageParams = ["content", "replyTo"] ∧
      newMessagePayloadKeys =
        ["_id", "roomId", "senderId", "content", "replyTo", "read", "timestamp"] ∧
      "kind" ∉ newMessagePayloadKeys ∧ "voiceUrl" ∉ newMessagePayloadKeys ∧
      "voiceDuration" ∉ newMessagePayloadKeys := by
  exact send_message_record_shape msgsDB stW "s1" "hi" none 7 42
    { deviceId := "A1", roomId := "r1" } (by decide)

theorem socketTo_bindSession (st : RelayState) (sid : String) (s : Session)
    (room x : String) : socketTo (bindSession st sid s) room x = socketTo st room x :=
  rfl

theorem socketTo_joinChannel (st : RelayState) (sid ch : String) :
    socketTo (joinChannel st sid ch) ch sid = socketTo st ch sid := by
  by_cases h : sid ∈ st.channelMembers ch
  · simp [socketTo, joinChannel, h]
  · simp [socketTo, joinChannel, h]

theorem mem_joinChannel_self (st : RelayState) (sid ch : String) :
    sid ∈ (joinChannel st sid ch).channelMembers ch := by
  by_cases h : sid ∈ st.channelMembers ch
  · simp [joinChannel, h]
  · simp [joinChannel, h]

theorem joinChannel_mem_mono (st : RelayState) (sid ch c x : String)
    (hx : x ∈ st.channelMembers c) : x ∈ (joinChannel st sid ch).channelMembers c := by
  by_cases hc : c = ch
  · subst hc
    by_cases h : sid ∈ st.channelMembers c
    · simpa [joinChannel, h] using hx
    · simpa [joinChannel, h] using Or.inr hx
  · simpa [joinChannel, hc] using hx

theorem join_room_success (st : RelayState) (sid d R : String) :
    join_room st sid R (jwtSign { deviceId := d, roomId := R } JWT_SECRET) =
      (bindSession (joinChannel st sid R) sid { deviceId := d, roomId := R },
       [{ event := "peer_online", recipients := socketTo st R sid }]) := by
  have hv : jwtVerify (jwtSign { deviceId := d, roomId := R } JWT_SECRET) JWT_SECRET =
      some { deviceId := d, roomId := R } := by
    unfold jwtVerify jwtSign
    rw [if_pos rfl]
  simp [join_room, hv, socketTo_bindSession, socketTo_joinChannel]

/-- Claim C6: with a bound session, every room broadcast — `peer_online`
on join, `message_read`, the four call-signaling relays and
`peer_offline` on disconnect — goes to the room channel members except
the originating socket, while `new_message` alone goes through `io.to`
to the whole channel, the originator included. -/
theorem broadcast_fanout (st : RelayState) (sid : String) (ctx : Session) (db : DB)
    (mid : Nat) (content : String) (replyTo : Option ReplyTo) (newId now : Nat)
    (d : String) (hctx : st.socketRooms sid = some ctx) :
    (message_read db st sid mid).2 =
        [{ event := "message_read", recipients := socketTo st ctx.roomId sid }] ∧
      call_offer st sid =
        [{ event := "call_offer", recipients := socketTo st ctx.roomId sid }] ∧
      call_answer st sid =
        [{ event := "call_answer", recipients := socketTo st ctx.roomId sid }] ∧
      ice_candidate st sid =
        [{ event := "ice_candidate", recipients := socketTo st ctx.roomId sid }] ∧
      call_end st sid =
        [{ event := "call_ended", recipients := socketTo st ctx.roomId sid }] ∧
      (disconnectHandler st sid).2 =
        [{ event := "peer_offline", recipients := socketTo st ctx.roomId sid }] ∧
      (join_room st sid ctx.roomId
          (jwtSign { deviceId := d, roomId := ctx.roomId } JWT_SECRET)).2 =
        [{ event := "peer_online", recipients := socketTo st ctx.roomId sid }] ∧
      sid ∉ socketTo st ctx.roomId sid ∧
      (∀ m ∈ st.channelMembers ctx.roomId, m ≠ sid → m ∈ socketTo st ctx.roomId sid) ∧
      (send_message db st sid content replyTo newId now).2 =
        [{ event := "new_message", recipients := ioTo st ctx.roomId }] ∧
      (∀ m ∈ st.channelMembers ctx.roomId, m ∈ ioTo st ctx.roomId) := by
  refine ⟨by simp [message_read, hctx], by simp [call_offer, hctx],
    by simp [call_answer, hctx], by simp [ice_candidate, hctx],
    by simp [call_end, hctx], by simp [disconnectHandler, hctx],
    by rw [join_room_success], ?_, ?_, by simp [send_message, hctx], ?_⟩
  · simp [socketTo, List.mem_filter]
  · intro m hm hne
    exact List.mem_filter.mpr ⟨hm, by simp [hne]⟩
  · intro m hm
    exact hm

/-- Witness for `broadcast_fanout` on the concrete relay state `stW`. -/
theorem broadcast_fanout_witness :
    (message_read msgsDB stW "s1" 1).2 =
        [{ event := "message_read", recipients := socketTo stW "r1" "s1" }] ∧
      call_offer stW "s1" =
        [{ event := "call_offer", recipients := socketTo stW "r1" "s1" }] ∧
      call_answer stW "s1" =
        [{ event := "call_answer", recipients := socketTo stW "r1" "s1" }] ∧
      ice_candidate stW "s1" =
        [{ event := "ice_candidate", recipients := socketTo stW "r1" "s1" }] ∧
      call_end stW "s1" =
        [{ event := "call_ended", recipients := socketTo stW "r1" "s1" }] ∧
      (disconnectHandler stW "s1").2 =
        [{ event := "peer_offline", recipients := socketTo stW "r1" "s1" }] ∧
      (join_room stW "s1" "r1"
          (jwtSign { deviceId := "A1", roomId := "r1" } JWT_SECRET)).2 =
        [{ event := "peer_online", recipients := socketTo stW "r1" "s1" }] ∧
      "s1" ∉ socketTo stW "r1" "s1" ∧
      (∀ m ∈ stW.channelMembers "r1", m ≠ "s1" → m ∈ socketTo stW "r1" "s1") ∧
      (send_message msgsDB stW "s1" "hi" none 7 42).2 =
        [{ event := "new_message", recipients := ioTo stW "r1" }] ∧
      (∀ m ∈ stW.channelMembers "r1", m ∈ ioTo stW "r1") := by
  exact broadcast_fanout stW "s1" { deviceId := "A1", roomId := "r1" } msgsDB
    1 "hi" none 7 42 "A1" (by decide)

/-- Claim C8: after any disconnect the Session Table holds no entry for
the closed connection; a disconnect without a session emits nothing; a
disconnect with a bound session emits exactly one `peer_offline` to the
room channel excluding the disconnecting socket, reaching every other
member. -/
theorem disconnect_unbinds_and_notifies (st : RelayState) (sid : String) :
    (disconnectHandler st sid).1.socketRooms sid = none ∧
      (st.socketRooms sid = none → (disconnectHandler st sid).2 = []) ∧
      (∀ ctx, st.socketRooms sid = some ctx →
        (disconnectHandler st sid).2 =
            [{ event := "peer_offline", recipients := socketTo st ctx.roomId sid }] ∧
          sid ∉ socketTo st ctx.roomId sid ∧
          (∀ m ∈ st.channelMembers ctx.roomId, m ≠ sid → m ∈ socketTo st ctx.roomId sid)) := by
  refine ⟨?_, ?_, ?_⟩
  · cases h : st.socketRooms sid with
    | none => simp [disconnectHandler, h]
    | some ctx => simp [disconnectHandler, h, unbindSession]
  · intro h
    simp [disconnectHandler, h]
  · intro ctx h
    refine ⟨by simp [disconnectHandler, h], ?_, ?_⟩
    · simp [socketTo, List.mem_filter]
    · intro m hm hne
      exact List.mem_filter.mpr ⟨hm, by simp [hne]⟩

/-- Relay state with no sessions and no channel members. -/
def emptyRelay : RelayState :=
  { socketRooms := fun _ => none, channelMembers := fun _ => [] }

/-- Witness for `disconnect_unbinds_and_notifies`: concrete bound and
unbound disconnects. -/
theorem disconnect_unbinds_and_notifies_witness :
    (disconnectHandler stW "s1").1.socketRooms "s1" = none ∧
      (disconnectHandler stW "s1").2 =
        [{ event := "peer_offline", recipients := socketTo stW "r1" "s1" }] ∧
      "s1" ∉ socketTo stW "r1" "s1" ∧
      (disconnectHandler emptyRelay "s9").2 = [] := by
  have h := disconnect_unbinds_and_notifies stW "s1"
  have hc := h.2.2 { deviceId := "A1", roomId := "r1" } (by decide)
  exact ⟨h.1, hc.1, hc.2.1,
    (disconnect_unbinds_and_notifies emptyRelay "s9").2.1 (by decide)⟩

theorem mem_updateOneReadById {m : MessageRow} {mid : Nat} :
    ∀ {l : List MessageRow}, m ∈ l → m.id = mid → (∀ r ∈ l, r.id = mid → r = m) →
      { m with read := true } ∈ updateOneReadById l mid := by
  intro l
  induction l with
  | nil => intro hm _ _; cases hm
  | cons a t ih =>
    intro hm hid huniq
    rw [updateOneReadById]
    by_cases ha : a.id = mid
    · rw [if_pos (beq_iff_eq.mpr ha)]
      have haeq : a = m := huniq a (List.mem_cons_self a t) ha
      subst haeq
      exact List.mem_cons_self _ _
    · rw [if_neg (by simpa using ha)]
      rcases List.mem_cons.mp hm with hm | hm
      · exact absurd (hm ▸ hid) ha
      · exact List.mem_cons_of_mem _
          (ih hm hid (fun r hr h => huniq r (List.mem_cons_of_mem a hr) h))

/-- Claim C9: `message_read` from a bound session updates the message
matching the id filter alone — even a message in a different room than
the caller's session is marked read (no roomId filtering, `_id` unique). -/
theorem message_read_cross_room (db : DB) (st : RelayState) (sid : String)
    (mid : Nat) (ctx : Session) (m : MessageRow)
    (hctx : st.socketRooms sid = some ctx)
    (hm : m ∈ db.messages) (hid : m.id = mid)
    (huniq : ∀ r ∈ db.messages, r.id = mid → r = m)
    (_hroom : m.roomId ≠ ctx.roomId) :
    { m with read := true } ∈ (message_read db st sid mid).1.messages := by
  simp only [message_read, hctx]
  exact mem_updateOneReadById hm hid huniq

/-- Witness for `message_read_cross_room`: socket `s1` (session in `r1`)
marks message 2, which lives in `r2`; the `r2` message ends up read. -/
theorem message_read_cross_room_witness :
    ({ id := 2, roomId := "r2", senderId := "B1", content := "b",
       replyTo := none, read := true, timestamp := 5 } : MessageRow) ∈
      (message_read msgsDB stW "s1" 2).1.messages := by
  exact message_read_cross_room msgsDB stW "s1" 2
    { deviceId := "A1", roomId := "r1" }
    { id := 2, roomId := "r2", senderId := "B1", content := "b",
      replyTo := none, read := false, timestamp := 5 }
    (by decide) (by decide) rfl (by decide) (by decide)

/-- Relay state after one connection joins room `R1` and then room `R2`,
each with a valid token. -/
def joinTwice (st0 : RelayState) (sid d R1 R2 : String) : RelayState :=
  (join_room (join_room st0 sid R1
      (jwtSign { deviceId := d, roomId := R1 } JWT_SECRET)).1
    sid R2 (jwtSign { deviceId := d, roomId := R2 } JWT_SECRET)).1

/-- Claim C10: after a successful join of `R1` followed by a successful
join of `R2`, the Session Table entry is overwritten to `R2`, yet the
socket is still a member of `R1`'s channel, so `R1` broadcasts (both the
`io.to` and another member's `socket.to` variants) still reach it. -/
theorem join_twice_keeps_old_channel (st0 : RelayState) (sid d R1 R2 : String) :
    (joinTwice st0 sid d R1 R2).socketRooms sid =
        some { deviceId := d, roomId := R2 } ∧
      sid ∈ (joinTwice st0 sid d R1 R2).channelMembers R1 ∧
      sid ∈ (joinTwice st0 sid d R1 R2).channelMembers R2 ∧
      sid ∈ ioTo (joinTwice st0 sid d R1 R2) R1 ∧
      (∀ other, other ≠ sid → sid ∈ socketTo (joinTwice st0 sid d R1 R2) R1 other) := by
  have hjt : joinTwice st0 sid d R1 R2 =
      bindSession
        (joinChannel (bindSession (joinChannel st0 sid R1) sid
          { deviceId := d, roomId := R1 }) sid R2)
        sid { deviceId := d, roomId := R2 } := by
    unfold joinTwice
    rw [join_room_success, join_room_success]
  rw [hjt]
  have hmem1 : sid ∈ (joinChannel (bindSession (joinChannel st0 sid R1) sid
      { deviceId := d, roomId := R1 }) sid R2).channelMembers R1 :=
    joinChannel_mem_mono _ sid R2 R1 sid (mem_joinChannel_self st0 sid R1)
  refine ⟨by simp [bindSession], hmem1, mem_joinChannel_self _ sid R2, hmem1, ?_⟩
  intro other hne
  exact List.mem_filter.mpr ⟨hmem1, decide_eq_true (fun h => hne h.symm)⟩

/-- Witness for `join_twice_keeps_old_channel` from the empty relay
state. -/
theorem join_twice_keeps_old_channel_witness :
    (joinTwice emptyRelay "s1" "A1" "r1" "r2").socketRooms "s1" =
        some { deviceId := "A1", roomId := "r2" } ∧
      "s1" ∈ (joinTwice emptyRelay "s1" "A1" "r1" "r2").channelMembers "r1" ∧
      "s1" ∈ ioTo (joinTwice emptyRelay "s1" "A1" "r1" "r2") "r1" ∧
      "s1" ∈ socketTo (joinTwice emptyRelay "s1" "A1" "r1" "r2") "r1" "s2" := by
  have h := join_twice_keeps_old_channel emptyRelay "s1" "A1" "r1" "r2"
  exact ⟨h.1, h.2.1, h.2.2.2.1, h.2.2.2.2 "s2" (by decide)⟩

end SecretCalc
